import Mathlib

/-!
Verification of the RustRoute RIPv2 router core (`src/routing_table.rs`,
`src/protocol.rs`, `src/router.rs`) against its natural-language
specification.

Shallow embedding conventions:
* `Ipv4` is a record of four octets (`u8` values; validity `< 256` stated
  where a theorem needs it).
* `std::time::Instant` is an absolute timestamp in whole seconds, a `Nat`;
  every Rust call to `Instant::now()` becomes an explicit `now` parameter.
  `Duration` values are likewise second counts. `Instant::duration_since`
  is truncated subtraction, matching its saturating behaviour.
* The `HashMap<String, Route>` keyed by the string `format!` of
  `destination` and `subnet_mask` joined by a slash is modelled as an
  association list keyed by the pair `(destination, subnet_mask)`; that
  format string is injective on the pair, so the keying is the same.
  Iteration order of `values()` is the list order.
* Rust `u32` arithmetic that can overflow carries an explicit `% 2 ^ 32`.
-/

/-- Four dotted octets of an IPv4 address (`std::net::Ipv4Addr`). -/
structure Ipv4 where
  o0 : Nat
  o1 : Nat
  o2 : Nat
  o3 : Nat
deriving DecidableEq, Repr

/-- `Ipv4Addr::UNSPECIFIED` (0.0.0.0). -/
def Ipv4.unspecified : Ipv4 := ⟨0, 0, 0, 0⟩

/-- `u32::from(Ipv4Addr)`: big-endian combination of the octets. -/
def Ipv4.toU32 (a : Ipv4) : Nat :=
  a.o0 * 16777216 + a.o1 * 65536 + a.o2 * 256 + a.o3

/-- `RouteSource` from `routing_table.rs`. -/
inductive RouteSource where
  | Direct
  | Static
  | Dynamic
deriving DecidableEq, Repr

/-- `RouteSource::priority`: Direct 3, Static 2, Dynamic 1. -/
def RouteSource.priority : RouteSource → Nat
  | .Direct => 3
  | .Static => 2
  | .Dynamic => 1

/-- `Route` from `routing_table.rs` (instants are `Nat` timestamps). -/
structure Route where
  destination : Ipv4
  subnet_mask : Ipv4
  next_hop : Ipv4
  metric : Nat
  interface : String
  learned_from : Option Ipv4
  last_updated : Nat
  created_at : Nat
  source : RouteSource
deriving DecidableEq, Repr

/-- `Route::new`; the trailing argument is the `Instant::now()` value. -/
def Route.new (destination subnet_mask next_hop : Ipv4) (metric : Nat)
    (interface : String) (source : RouteSource) (learned_from : Option Ipv4)
    (now : Nat) : Route :=
  { destination := destination
    subnet_mask := subnet_mask
    next_hop := next_hop
    metric := metric
    interface := interface
    learned_from := learned_from
    last_updated := now
    created_at := now
    source := source }

/-- `Route::new_direct`: metric 1, unspecified next hop, Direct source. -/
def Route.new_direct (destination subnet_mask : Ipv4) (interface : String)
    (now : Nat) : Route :=
  Route.new destination subnet_mask Ipv4.unspecified 1 interface
    RouteSource.Direct none now

/-- 32-iteration popcount; on a `u32` value (`< 2 ^ 32`) this is exactly
`u32::count_ones`. -/
def popCountAux : Nat → Nat → Nat
  | 0, _ => 0
  | fuel + 1, n => n % 2 + popCountAux fuel (n / 2)

/-- `u32::count_ones` for the `u32` obtained from an address. -/
def popCount32 (n : Nat) : Nat := popCountAux 32 n

/-- `Route::prefix_length`: number of one bits of the subnet mask. -/
def Route.prefLength (r : Route) : Nat := popCount32 r.subnet_mask.toU32

/-- `Route::mark_unreachable`: metric to 16, refresh `last_updated`. -/
def Route.mark_unreachable (r : Route) (now : Nat) : Route :=
  { r with metric := 16, last_updated := now }

/-- `Route::update_from`: copy the mutable part of `other`, refresh
`last_updated` (destination, mask and `created_at` are kept). -/
def Route.update_from (r other : Route) (now : Nat) : Route :=
  { r with
    metric := other.metric
    next_hop := other.next_hop
    interface := other.interface
    learned_from := other.learned_from
    last_updated := now
    source := other.source }

/-- Table key: the pair behind the `format!` string of
`RoutingTable::key` (the string is injective on the pair). -/
abbrev RouteKey := Ipv4 × Ipv4

/-- `RoutingTable` from `routing_table.rs`: the `HashMap` is an
association list, timers are second counts. -/
structure RoutingTable where
  routes : List (RouteKey × Route)
  route_timeout : Nat
  garbage_collection_timeout : Nat
deriving DecidableEq, Repr

/-- `RoutingTable::with_timeouts` on an empty map. -/
def RoutingTable.with_timeouts (route_timeout garbage_collection_timeout : Nat) :
    RoutingTable :=
  { routes := [], route_timeout := route_timeout
    garbage_collection_timeout := garbage_collection_timeout }

/-- `RoutingTable::new`: default timers 180 s and 240 s. -/
def RoutingTable.new : RoutingTable := RoutingTable.with_timeouts 180 240

/-- `HashMap::get` on the model: first entry with the given key. -/
def RoutingTable.findRoute (rt : RoutingTable) (k : RouteKey) : Option Route :=
  (rt.routes.find? (fun kv => kv.1 = k)).map (·.2)

/-- Overwrite the value stored at a key (the `get_mut` write-back). -/
def RoutingTable.setRoute (rt : RoutingTable) (k : RouteKey) (r : Route) :
    RoutingTable :=
  { rt with routes := rt.routes.map (fun kv => if kv.1 = k then (k, r) else kv) }

/-- `RoutingTable::add_or_replace`, returning the mutated table and the
`bool` result; `now` is the `Instant::now()` inside `update_from`. -/
def RoutingTable.add_or_replace (rt : RoutingTable) (route : Route) (now : Nat) :
    RoutingTable × Bool :=
  let k : RouteKey := (route.destination, route.subnet_mask)
  match rt.findRoute k with
  | some existing =>
    if route.source.priority > existing.source.priority then
      (rt.setRoute k route, true)
    else if route.metric < existing.metric ∨
        (route.metric = existing.metric ∧ route.next_hop = existing.next_hop ∧
          route.interface = existing.interface) then
      (rt.setRoute k (existing.update_from route now), true)
    else
      (rt, false)
  | none =>
    ({ rt with routes := rt.routes ++ [(k, route)] }, true)

/-- `RoutingTable::install_direct_route`. -/
def RoutingTable.install_direct_route (rt : RoutingTable)
    (destination subnet_mask : Ipv4) (interface : String) (now : Nat) :
    RoutingTable × Bool :=
  rt.add_or_replace (Route.new_direct destination subnet_mask interface now) now

/-- `RoutingTable::add_static_route`. -/
def RoutingTable.add_static_route (rt : RoutingTable)
    (destination subnet_mask next_hop : Ipv4) (metric : Nat)
    (interface : String) (now : Nat) : RoutingTable × Bool :=
  rt.add_or_replace
    (Route.new destination subnet_mask next_hop metric interface
      RouteSource.Static (some next_hop) now) now

/-- `RoutingTable::get_all_routes`: the values in iteration order. -/
def RoutingTable.get_all_routes (rt : RoutingTable) : List Route :=
  rt.routes.map (·.2)

/-- `RoutingTable::get_routes_for_advertising`: drop routes whose egress
interface is the outgoing one (no source or flag distinction). -/
def RoutingTable.get_routes_for_advertising (rt : RoutingTable)
    (outgoing_interface : String) : List Route :=
  rt.get_all_routes.filter (fun route => route.interface ≠ outgoing_interface)

/-- `RoutingTable::matches_network`: octet-wise masked comparison. -/
def RoutingTable.matches_network (destination : Ipv4) (route : Route) : Bool :=
  (destination.o0 &&& route.subnet_mask.o0 = route.destination.o0 &&& route.subnet_mask.o0) &&
  (destination.o1 &&& route.subnet_mask.o1 = route.destination.o1 &&& route.subnet_mask.o1) &&
  (destination.o2 &&& route.subnet_mask.o2 = route.destination.o2 &&& route.subnet_mask.o2) &&
  (destination.o3 &&& route.subnet_mask.o3 = route.destination.o3 &&& route.subnet_mask.o3)

/-- `Iterator::max_by_key`: the last maximal element of the list. -/
def maxByKeyLast (f : α → Nat) : List α → Option α
  | [] => none
  | x :: xs =>
    match maxByKeyLast f xs with
    | none => some x
    | some b => if f b ≥ f x then some b else some x

/-- `RoutingTable::find_best_route`: filter the matching routes, then
`max_by_key(prefix_length)`. -/
def RoutingTable.find_best_route (rt : RoutingTable) (destination : Ipv4) :
    Option Route :=
  maxByKeyLast Route.prefLength
    (rt.get_all_routes.filter (RoutingTable.matches_network destination))

/-- `RoutingTable::clear_source`: retain the other sources. -/
def RoutingTable.clear_source (rt : RoutingTable) (source : RouteSource) :
    RoutingTable :=
  { rt with routes := rt.routes.filter (fun kv => kv.2.source ≠ source) }

/-- `RoutingTable::process_timeouts` at time `now`: stale Dynamic routes
are marked unreachable. -/
def RoutingTable.process_timeouts (rt : RoutingTable) (now : Nat) :
    RoutingTable :=
  { rt with
    routes := rt.routes.map (fun kv =>
      if kv.2.source = RouteSource.Dynamic ∧
          now - kv.2.last_updated > rt.route_timeout then
        (kv.1, kv.2.mark_unreachable now)
      else kv) }

/-- `RoutingTable::garbage_collect` at time `now`: drop unreachable
Dynamic routes whose `last_updated` is older than the GC timeout. -/
def RoutingTable.garbage_collect (rt : RoutingTable) (now : Nat) :
    RoutingTable :=
  { rt with
    routes := rt.routes.filter (fun kv =>
      if kv.2.source = RouteSource.Dynamic ∧ kv.2.metric ≥ 16 then
        now - kv.2.last_updated ≤ rt.garbage_collection_timeout
      else true) }

/-! ## Protocol codec (`src/protocol.rs`) -/

/-- `RipCommand` (discriminants 1 and 2). -/
inductive RipCommand where
  | Request
  | Response
deriving DecidableEq, Repr

/-- The `as u8` cast of the `RipCommand` discriminant. -/
def RipCommand.toByte : RipCommand → Nat
  | .Request => 1
  | .Response => 2

/-- `RipEntry` from `protocol.rs` (`address_family`, `route_tag` are
`u16`; `metric` is `u32`). -/
structure RipEntry where
  address_family : Nat
  route_tag : Nat
  ip_address : Ipv4
  subnet_mask : Ipv4
  next_hop : Ipv4
  metric : Nat
deriving DecidableEq, Repr

/-- `RipPacket` from `protocol.rs` (`version` is `u8`, `reserved` `u16`). -/
structure RipPacket where
  command : RipCommand
  version : Nat
  reserved : Nat
  entries : List RipEntry
deriving DecidableEq, Repr

/-- The error type at the codec boundary
(`RustRouteError::ProtocolError`). -/
inductive RustRouteError where
  | ProtocolError (msg : String)
deriving DecidableEq, Repr

/-- Message of the length check in `RipPacket::from_bytes`. -/
def msgPacketTooShort : String := "Packet too short"

/-- Message of the command check in `RipPacket::from_bytes`. -/
def msgInvalidCommand : String := "Invalid command"

/-- `u16::to_be_bytes` (the argument is a `u16` value, `< 2 ^ 16`). -/
def beBytes16 (n : Nat) : List Nat := [n / 256, n % 256]

/-- `u32::to_be_bytes` (the argument is a `u32` value, `< 2 ^ 32`). -/
def beBytes32 (n : Nat) : List Nat :=
  [n / 16777216, n / 65536 % 256, n / 256 % 256, n % 256]

/-- `Ipv4Addr::octets`. -/
def Ipv4.octets (a : Ipv4) : List Nat := [a.o0, a.o1, a.o2, a.o3]

/-- The 20 bytes one entry contributes inside `RipPacket::to_bytes`. -/
def RipEntry.toBytes (e : RipEntry) : List Nat :=
  beBytes16 e.address_family ++ beBytes16 e.route_tag ++
    e.ip_address.octets ++ e.subnet_mask.octets ++ e.next_hop.octets ++
    beBytes32 e.metric

/-- `RipPacket::to_bytes` (the Rust function always returns `Ok`, so the
embedding returns the buffer directly). -/
def RipPacket.to_bytes (p : RipPacket) : List Nat :=
  p.command.toByte :: p.version :: beBytes16 p.reserved ++
    (p.entries.map RipEntry.toBytes).flatten

/-- The entry-parsing loop of `RipPacket::from_bytes`: consume 20-byte
chunks while at least 20 bytes remain; a shorter tail is ignored. -/
def parseEntries : List Nat → List RipEntry
  | b0 :: b1 :: b2 :: b3 :: b4 :: b5 :: b6 :: b7 :: b8 :: b9 :: b10 :: b11 ::
      b12 :: b13 :: b14 :: b15 :: b16 :: b17 :: b18 :: b19 :: rest =>
    { address_family := b0 * 256 + b1
      route_tag := b2 * 256 + b3
      ip_address := ⟨b4, b5, b6, b7⟩
      subnet_mask := ⟨b8, b9, b10, b11⟩
      next_hop := ⟨b12, b13, b14, b15⟩
      metric := b16 * 16777216 + b17 * 65536 + b18 * 256 + b19 } ::
      parseEntries rest
  | _ => []

/-- `RipPacket::from_bytes`: fails only when fewer than 4 bytes are
present or the command byte is neither 1 nor 2; `version` and `reserved`
are read back without checks. -/
def RipPacket.from_bytes (data : List Nat) : Except RustRouteError RipPacket :=
  match data with
  | b0 :: b1 :: b2 :: b3 :: rest =>
    if b0 = 1 then
      Except.ok
        { command := RipCommand.Request, version := b1
          reserved := b2 * 256 + b3, entries := parseEntries rest }
    else if b0 = 2 then
      Except.ok
        { command := RipCommand.Response, version := b1
          reserved := b2 * 256 + b3, entries := parseEntries rest }
    else
      Except.error (RustRouteError.ProtocolError msgInvalidCommand)
  | _ => Except.error (RustRouteError.ProtocolError msgPacketTooShort)

/-- `RipPacket::validate`: version must be 2 and every entry metric at
most 16 (nothing else is checked). -/
def RipPacket.validate (p : RipPacket) : Bool :=
  p.version = 2 && p.entries.all (fun e => e.metric ≤ 16)

/-- `RipPacket::new_update` (the `router_id` argument is unused by the
Rust function): a version-2 Response carrying one entry per route, with
the route metric unchanged. -/
def RipPacket.new_update (routes : List Route) : RipPacket :=
  { command := RipCommand.Response
    version := 2
    reserved := 0
    entries := routes.map (fun route =>
      { address_family := 2
        route_tag := 0
        ip_address := route.destination
        subnet_mask := route.subnet_mask
        next_hop := route.next_hop
        metric := route.metric }) }

/-! ## Protocol engine (`src/router.rs`) -/

/-- The fields of `RouterConfig` the engine reads. -/
structure RouterConfig where
  port : Nat
  rip_version : Nat
  update_interval : Nat
  holddown_timer : Nat
  garbage_collection_timer : Nat
  max_hop_count : Nat
  split_horizon : Bool
  poison_reverse : Bool
deriving DecidableEq, Repr

/-- `RouterConfig::default()`: note `max_hop_count` is 15. -/
def RouterConfig.default : RouterConfig :=
  { port := 520, rip_version := 2, update_interval := 30
    holddown_timer := 180, garbage_collection_timer := 240
    max_hop_count := 15, split_horizon := true, poison_reverse := false }

/-- The metric computed for each received entry inside
`Router::process_rip_packet`:
`std::cmp::min(route.metric + 1, config.max_hop_count as u32)`,
with the `u32` addition taken modulo `2 ^ 32`. -/
def Router.process_rip_packet_metric (received : Nat) (cfg : RouterConfig) : Nat :=
  min ((received + 1) % 4294967296) cfg.max_hop_count

/-- The packet `Router::periodic_update_sender` broadcasts, built from
`get_all_routes` on the shared table; the same packet is sent on every
interface, and the `split_horizon` and `poison_reverse` flags of the
configuration are not consulted. -/
def Router.periodic_update_packet (_cfg : RouterConfig) (rt : RoutingTable) :
    RipPacket :=
  RipPacket.new_update rt.get_all_routes

/-- Validity of the four octets as `u8` values. -/
def Ipv4.valid (a : Ipv4) : Prop :=
  a.o0 < 256 ∧ a.o1 < 256 ∧ a.o2 < 256 ∧ a.o3 < 256

/-- Field bounds of a wire-representable entry (`u16`/`u32` ranges). -/
def RipEntry.valid (e : RipEntry) : Prop :=
  e.address_family < 65536 ∧ e.route_tag < 65536 ∧ e.ip_address.valid ∧
    e.subnet_mask.valid ∧ e.next_hop.valid ∧ e.metric < 4294967296

/-- A packet representing a valid RIPv2 datagram: version 2, reserved 0,
1 to 25 wire-representable entries. -/
def RipPacket.validRip (p : RipPacket) : Prop :=
  p.version = 2 ∧ p.reserved = 0 ∧ 1 ≤ p.entries.length ∧
    p.entries.length ≤ 25 ∧ ∀ e ∈ p.entries, e.valid

/-- A valid RIPv2 datagram: 4-byte header with command 1 or 2, version
2, reserved 0, and 1 to 25 full 20-byte entries of bytes. -/
def validDatagram (d : List Nat) : Prop :=
  4 ≤ d.length ∧ (d.length - 4) % 20 = 0 ∧ 1 ≤ (d.length - 4) / 20 ∧
    (d.length - 4) / 20 ≤ 25 ∧ (d.getD 0 0 = 1 ∨ d.getD 0 0 = 2) ∧
    d.getD 1 0 = 2 ∧ d.getD 2 0 = 0 ∧ d.getD 3 0 = 0 ∧ ∀ b ∈ d, b < 256

instance (a : Ipv4) : Decidable a.valid := by
  unfold Ipv4.valid
  infer_instance

instance (e : RipEntry) : Decidable e.valid := by
  unfold RipEntry.valid
  infer_instance

instance (p : RipPacket) : Decidable p.validRip := by
  unfold RipPacket.validRip
  infer_instance

instance (d : List Nat) : Decidable (validDatagram d) := by
  unfold validDatagram
  infer_instance

/-! ## Helper lemmas -/

/-- An element picked by `maxByKeyLast` belongs to the list. -/
theorem maxByKeyLast_mem {f : α → Nat} : ∀ {l : List α} {x : α},
    maxByKeyLast f l = some x → x ∈ l := by
  intro l
  induction l with
  | nil => intro x h; simp [maxByKeyLast] at h
  | cons a t ih =>
    intro x h
    simp only [maxByKeyLast] at h
    cases ht : maxByKeyLast f t with
    | none => rw [ht] at h; cases h; exact List.mem_cons_self a t
    | some b =>
      rw [ht] at h
      by_cases hb : f b ≥ f a
      · simp [hb] at h; subst h; exact List.mem_cons_of_mem a (ih ht)
      · simp [hb] at h; subst h; exact List.mem_cons_self a t

/-- `maxByKeyLast` returns `none` exactly on the empty list. -/
theorem maxByKeyLast_eq_none {f : α → Nat} : ∀ {l : List α},
    maxByKeyLast f l = none ↔ l = [] := by
  intro l
  cases l with
  | nil => simp [maxByKeyLast]
  | cons a t =>
    simp only [maxByKeyLast]
    cases maxByKeyLast f t with
    | none => simp
    | some b => by_cases hb : f b ≥ f a <;> simp [hb]

/-- `maxByKeyLast` picks an element whose key is maximal. -/
theorem maxByKeyLast_le {f : α → Nat} : ∀ {l : List α} {x : α},
    maxByKeyLast f l = some x → ∀ y ∈ l, f y ≤ f x := by
  intro l
  induction l with
  | nil => intro x h; simp [maxByKeyLast] at h
  | cons a t ih =>
    intro x h y hy
    simp only [maxByKeyLast] at h
    cases ht : maxByKeyLast f t with
    | none =>
      rw [ht] at h
      cases h
      have ht' : t = [] := maxByKeyLast_eq_none.mp ht
      subst ht'
      rcases List.mem_cons.mp hy with rfl | hyt
      · exact le_refl _
      · simp at hyt
    | some b =>
      rw [ht] at h
      by_cases hb : f b ≥ f a
      · simp [hb] at h
        subst h
        rcases List.mem_cons.mp hy with rfl | hyt
        · exact hb
        · exact ih ht y hyt
      · simp [hb] at h
        subst h
        rcases List.mem_cons.mp hy with rfl | hyt
        · exact le_refl _
        · exact le_trans (ih ht y hyt) (le_of_not_le hb)

/-- A found entry that survives a filter is still the one found. -/
theorem find?_filter_of_pred {α : Type} (q p : α → Bool) :
    ∀ {l : List α} {x : α}, l.find? q = some x → p x = true →
      (l.filter p).find? q = some x := by
  intro l
  induction l with
  | nil => intro x h; simp at h
  | cons a t ih =>
    intro x h hp
    by_cases hq : q a = true
    · rw [List.find?_cons_of_pos _ hq] at h
      cases h
      rw [List.filter_cons_of_pos hp, List.find?_cons_of_pos _ hq]
    · rw [List.find?_cons_of_neg _ (by simp [hq])] at h
      by_cases hpa : p a = true
      · rw [List.filter_cons_of_pos hpa, List.find?_cons_of_neg _ (by simp [hq])]
        exact ih h hp
      · rw [List.filter_cons_of_neg (by simp [hpa])]
        exact ih h hp

/-- `process_timeouts` acts entrywise on the stored route. -/
theorem findRoute_process_timeouts (rt : RoutingTable) (now : Nat) (k : RouteKey) :
    (rt.process_timeouts now).findRoute k =
      (rt.findRoute k).map (fun r =>
        if r.source = RouteSource.Dynamic ∧ now - r.last_updated > rt.route_timeout
        then r.mark_unreachable now else r) := by
  obtain ⟨l, tmo, gc⟩ := rt
  unfold RoutingTable.process_timeouts RoutingTable.findRoute
  simp only
  induction l with
  | nil => simp
  | cons kv t ih =>
    simp only [List.map_cons, List.find?]
    have hproj : (if kv.2.source = RouteSource.Dynamic ∧
        now - kv.2.last_updated > tmo
        then (kv.1, kv.2.mark_unreachable now) else kv).1 = kv.1 := by
      by_cases hcond : kv.2.source = RouteSource.Dynamic ∧
          now - kv.2.last_updated > tmo <;> simp [hcond]
    rw [hproj]
    cases hd : decide (kv.1 = k) with
    | true =>
      by_cases hcond : kv.2.source = RouteSource.Dynamic ∧
          now - kv.2.last_updated > tmo <;> simp [hcond]
    | false => exact ih

/-! ## Claim theorems -/

/-- C10: `clear_source s` removes exactly the entries whose source equals
`s`: an entry survives, under its key and with all fields unchanged, iff
its source differs from `s`. -/
theorem clear_source_removes_exactly (rt : RoutingTable) (s : RouteSource)
    (k : RouteKey) (r : Route) :
    (k, r) ∈ (rt.clear_source s).routes ↔ (k, r) ∈ rt.routes ∧ r.source ≠ s := by
  unfold RoutingTable.clear_source
  simp [List.mem_filter]

/-- C2 (code bug evaluated): on a Static incumbent with metric 5, an
incoming Dynamic route with metric 2 is accepted by `add_or_replace`
(returns `true`) and the stored route becomes Dynamic — the metric branch
commented as applying at equal source priority also runs for a
lower-priority source. -/
theorem add_or_replace_dynamic_displaces_static :
    ((RoutingTable.new.add_or_replace
        (Route.new ⟨10,0,0,0⟩ ⟨255,255,255,0⟩ ⟨10,0,0,1⟩ 5 "eth0"
          RouteSource.Static (some ⟨10,0,0,1⟩) 0) 0).1).findRoute
        (⟨10,0,0,0⟩, ⟨255,255,255,0⟩) =
      some (Route.new ⟨10,0,0,0⟩ ⟨255,255,255,0⟩ ⟨10,0,0,1⟩ 5 "eth0"
        RouteSource.Static (some ⟨10,0,0,1⟩) 0) ∧
    (((RoutingTable.new.add_or_replace
        (Route.new ⟨10,0,0,0⟩ ⟨255,255,255,0⟩ ⟨10,0,0,1⟩ 5 "eth0"
          RouteSource.Static (some ⟨10,0,0,1⟩) 0) 0).1).add_or_replace
        (Route.new ⟨10,0,0,0⟩ ⟨255,255,255,0⟩ ⟨10,0,0,2⟩ 2 "eth1"
          RouteSource.Dynamic (some ⟨10,0,0,2⟩) 7) 7).2 = true ∧
    ((((RoutingTable.new.add_or_replace
        (Route.new ⟨10,0,0,0⟩ ⟨255,255,255,0⟩ ⟨10,0,0,1⟩ 5 "eth0"
          RouteSource.Static (some ⟨10,0,0,1⟩) 0) 0).1).add_or_replace
        (Route.new ⟨10,0,0,0⟩ ⟨255,255,255,0⟩ ⟨10,0,0,2⟩ 2 "eth1"
          RouteSource.Dynamic (some ⟨10,0,0,2⟩) 7) 7).1.findRoute
        (⟨10,0,0,0⟩, ⟨255,255,255,0⟩)).map Route.source =
      some RouteSource.Dynamic := by
  decide

/-- Counterexample for C3: at received metric 15 under the default
configuration (`max_hop_count = 15`) the engine computes metric 15, while
the claimed formula `min(m + cost, 16)` gives 16. -/
theorem process_rip_metric_not_16 :
    Router.process_rip_packet_metric 15 RouterConfig.default = 15 ∧
    min (15 + 1) 16 = 16 ∧ (15 : Nat) ≠ 16 := by
  decide

/-- C3 (amended): for every received metric of a validated packet
(`m ≤ 16`), the engine metric is `min(m + 1, max_hop_count)` with the
default `max_hop_count = 15`; in particular it is never 16. -/
theorem process_rip_metric_min_max_hop (m : Nat) (hm : m ≤ 16) :
    Router.process_rip_packet_metric m RouterConfig.default = min (m + 1) 15 ∧
    Router.process_rip_packet_metric m RouterConfig.default ≠ 16 := by
  unfold Router.process_rip_packet_metric RouterConfig.default
  simp only
  rw [Nat.mod_eq_of_lt (by omega)]
  omega

/-- Witness for the C3 amended theorem at received metric 3. -/
theorem process_rip_metric_min_max_hop_witness :
    (3 : Nat) ≤ 16 ∧
    (Router.process_rip_packet_metric 3 RouterConfig.default = min (3 + 1) 15 ∧
      Router.process_rip_packet_metric 3 RouterConfig.default ≠ 16) :=
  ⟨by decide, process_rip_metric_min_max_hop 3 (by decide)⟩

/-- Counterexample for C9: installing a Direct route identical to the
incumbent Direct route returns `true` ("changed"), not the claimed
"unchanged" result. -/
theorem install_direct_route_reports_changed :
    let t1 := (RoutingTable.new.install_direct_route ⟨192,168,1,0⟩
      ⟨255,255,255,0⟩ "eth0" 0).1
    t1.findRoute (⟨192,168,1,0⟩, ⟨255,255,255,0⟩) =
        some (Route.new_direct ⟨192,168,1,0⟩ ⟨255,255,255,0⟩ "eth0" 0) ∧
    (t1.install_direct_route ⟨192,168,1,0⟩ ⟨255,255,255,0⟩ "eth0" 5).2 = true := by
  decide

/-- C9 (amended): `install_direct_route` over an identical Direct
incumbent only refreshes `last_updated` (all other fields, `created_at`
included, are kept) but reports `true`. -/
theorem install_direct_route_noop (rt : RoutingTable) (d m : Ipv4) (i : String)
    (t0 now : Nat) (h : rt.findRoute (d, m) = some (Route.new_direct d m i t0)) :
    rt.install_direct_route d m i now =
      (rt.setRoute (d, m)
        { Route.new_direct d m i t0 with last_updated := now }, true) := by
  unfold RoutingTable.install_direct_route RoutingTable.add_or_replace
  simp only [Route.new_direct, Route.new] at h ⊢
  rw [h]
  simp [Route.update_from, RouteSource.priority, Ipv4.unspecified]

/-- Witness for the C9 amended theorem on a one-route table. -/
theorem install_direct_route_noop_witness :
    ((RoutingTable.new.install_direct_route ⟨10,1,0,0⟩ ⟨255,255,0,0⟩ "eth1" 2).1).install_direct_route
        ⟨10,1,0,0⟩ ⟨255,255,0,0⟩ "eth1" 9 =
      (((RoutingTable.new.install_direct_route ⟨10,1,0,0⟩ ⟨255,255,0,0⟩ "eth1" 2).1).setRoute
        (⟨10,1,0,0⟩, ⟨255,255,0,0⟩)
        { Route.new_direct ⟨10,1,0,0⟩ ⟨255,255,0,0⟩ "eth1" 2 with last_updated := 9 }, true) :=
  install_direct_route_noop _ ⟨10,1,0,0⟩ ⟨255,255,0,0⟩ "eth1" 2 9 (by decide)

/-- Counterexample for C5: a Response entry from the incumbent's own
(next hop, interface) with a worse metric (5 against 2) is ignored by
`add_or_replace` — `last_updated` stays 0, no refresh happens. -/
theorem same_path_worse_metric_not_refreshed :
    let dyn1 := Route.new ⟨10,2,0,0⟩ ⟨255,255,0,0⟩ ⟨10,1,0,9⟩ 2 "eth1"
      RouteSource.Dynamic (some ⟨10,1,0,9⟩) 0
    let worse := Route.new ⟨10,2,0,0⟩ ⟨255,255,0,0⟩ ⟨10,1,0,9⟩ 5 "eth1"
      RouteSource.Dynamic (some ⟨10,1,0,9⟩) 100
    let t1 := (RoutingTable.new.add_or_replace dyn1 0).1
    let res := t1.add_or_replace worse 100
    res.2 = false ∧ res.1 = t1 ∧
    (res.1.findRoute (⟨10,2,0,0⟩, ⟨255,255,0,0⟩)).map Route.last_updated =
      some 0 := by
  decide

/-- C5 (amended): for a Dynamic incumbent and a Dynamic route from the
same (next hop, interface), `add_or_replace` refreshes — resetting
`last_updated` to `now` via `update_from` — iff the new metric is at most
the incumbent's; a worse metric from the same path is ignored without a
refresh. -/
theorem add_or_replace_same_path_refresh (rt : RoutingTable) (ex route : Route)
    (now : Nat)
    (hfind : rt.findRoute (route.destination, route.subnet_mask) = some ex)
    (hexs : ex.source = RouteSource.Dynamic)
    (hrs : route.source = RouteSource.Dynamic)
    (hnh : route.next_hop = ex.next_hop)
    (hif : route.interface = ex.interface) :
    (route.metric ≤ ex.metric →
      rt.add_or_replace route now =
        (rt.setRoute (route.destination, route.subnet_mask)
          (ex.update_from route now), true) ∧
      (ex.update_from route now).last_updated = now) ∧
    (route.metric > ex.metric → rt.add_or_replace route now = (rt, false)) := by
  have hpr : ¬ route.source.priority > ex.source.priority := by
    rw [hexs, hrs]
    exact Nat.lt_irrefl _
  constructor
  · intro hm
    refine ⟨?_, rfl⟩
    simp only [RoutingTable.add_or_replace, hfind]
    rw [if_neg hpr, if_pos]
    rcases Nat.lt_or_ge route.metric ex.metric with hlt | hge
    · exact Or.inl hlt
    · exact Or.inr ⟨le_antisymm hm hge, hnh, hif⟩
  · intro hm
    simp only [RoutingTable.add_or_replace, hfind]
    rw [if_neg hpr, if_neg]
    rintro (hlt | ⟨heq, -, -⟩)
    · omega
    · omega

/-- Witness for the C5 amended theorem: a same-path update with a better
metric (3 against 4) at time 50 refreshes the entry. -/
theorem add_or_replace_same_path_refresh_witness :
    ((RoutingTable.new.add_or_replace
        (Route.new ⟨10,2,0,0⟩ ⟨255,255,0,0⟩ ⟨10,1,0,9⟩ 4 "eth0"
          RouteSource.Dynamic (some ⟨10,1,0,9⟩) 0) 0).1).add_or_replace
        (Route.new ⟨10,2,0,0⟩ ⟨255,255,0,0⟩ ⟨10,1,0,9⟩ 3 "eth0"
          RouteSource.Dynamic (some ⟨10,1,0,9⟩) 50) 50 =
      (((RoutingTable.new.add_or_replace
          (Route.new ⟨10,2,0,0⟩ ⟨255,255,0,0⟩ ⟨10,1,0,9⟩ 4 "eth0"
            RouteSource.Dynamic (some ⟨10,1,0,9⟩) 0) 0).1).setRoute
        (⟨10,2,0,0⟩, ⟨255,255,0,0⟩)
        ((Route.new ⟨10,2,0,0⟩ ⟨255,255,0,0⟩ ⟨10,1,0,9⟩ 4 "eth0"
            RouteSource.Dynamic (some ⟨10,1,0,9⟩) 0).update_from
          (Route.new ⟨10,2,0,0⟩ ⟨255,255,0,0⟩ ⟨10,1,0,9⟩ 3 "eth0"
            RouteSource.Dynamic (some ⟨10,1,0,9⟩) 50) 50), true) := by
  have h := add_or_replace_same_path_refresh
    ((RoutingTable.new.add_or_replace
      (Route.new ⟨10,2,0,0⟩ ⟨255,255,0,0⟩ ⟨10,1,0,9⟩ 4 "eth0"
        RouteSource.Dynamic (some ⟨10,1,0,9⟩) 0) 0).1)
    (Route.new ⟨10,2,0,0⟩ ⟨255,255,0,0⟩ ⟨10,1,0,9⟩ 4 "eth0"
      RouteSource.Dynamic (some ⟨10,1,0,9⟩) 0)
    (Route.new ⟨10,2,0,0⟩ ⟨255,255,0,0⟩ ⟨10,1,0,9⟩ 3 "eth0"
      RouteSource.Dynamic (some ⟨10,1,0,9⟩) 50)
    50 (by decide) rfl rfl rfl rfl
  exact (h.1 (by decide)).1

/-- Counterexample for C4: under the default configuration
(`split_horizon = true`, `poison_reverse = false`), the packet that
`periodic_update_sender` broadcasts on every interface — including
"eth0" — contains the Dynamic route learned on "eth0", with its metric 2
(neither omitted nor poisoned to 16). -/
theorem periodic_update_ignores_split_horizon :
    let r := Route.new ⟨10,0,0,0⟩ ⟨255,255,255,0⟩ ⟨10,1,0,1⟩ 2 "eth0"
      RouteSource.Dynamic (some ⟨10,1,0,1⟩) 0
    let rt := (RoutingTable.new.add_or_replace r 0).1
    RouterConfig.default.split_horizon = true ∧
    RouterConfig.default.poison_reverse = false ∧
    (⟨2, 0, ⟨10,0,0,0⟩, ⟨255,255,255,0⟩, ⟨10,1,0,1⟩, 2⟩ : RipEntry) ∈
      (Router.periodic_update_packet RouterConfig.default rt).entries := by
  decide

/-- C4 (amended): the advertisement set built by
`get_routes_for_advertising` for interface `i` contains a route iff the
route is in the table and its egress interface differs from `i` — for
every source, and independently of the `split_horizon` and
`poison_reverse` flags, which this path never consults (and
`poison_reverse` never re-adds such a route with metric 16); the
`periodic_update_sender` path in `router.rs` applies no filtering at
all. -/
theorem get_routes_for_advertising_excludes_iface (rt : RoutingTable)
    (i : String) (r : Route) :
    r ∈ rt.get_routes_for_advertising i ↔
      r ∈ rt.get_all_routes ∧ r.interface ≠ i := by
  unfold RoutingTable.get_routes_for_advertising
  simp [List.mem_filter]

/-- Counterexample for C1: a table whose only entry matches the
destination but has metric 16 — the claimed lookup over entries with
metric < 16 would return nothing, yet `find_best_route` returns it. -/
theorem find_best_route_returns_metric_16 :
    let r := Route.new ⟨10,0,0,0⟩ ⟨255,255,255,0⟩ ⟨10,1,0,1⟩ 16 "eth1"
      RouteSource.Dynamic (some ⟨10,1,0,1⟩) 0
    let rt := (RoutingTable.new.add_or_replace r 0).1
    rt.find_best_route ⟨10,0,0,42⟩ = some r ∧
    (rt.find_best_route ⟨10,0,0,42⟩).map Route.metric = some 16 := by
  decide

/-- C1 (amended): `find_best_route` returns a stored route matching the
destination with maximal prefix length whenever any stored route matches
(entries with metric 16 included, no source/metric/age tie-breaking: the
last maximal entry in table iteration order wins), and `none` exactly
when no stored route matches; it is a pure function of the table, so
repeated lookups without mutation return identical results. -/
theorem find_best_route_longest_match (rt : RoutingTable) (d : Ipv4) :
    (∀ r, rt.find_best_route d = some r →
      RoutingTable.matches_network d r = true ∧ r ∈ rt.get_all_routes ∧
        ∀ r' ∈ rt.get_all_routes, RoutingTable.matches_network d r' = true →
          r'.prefLength ≤ r.prefLength) ∧
    (rt.find_best_route d = none →
      ∀ r' ∈ rt.get_all_routes, RoutingTable.matches_network d r' = false) := by
  constructor
  · intro r h
    unfold RoutingTable.find_best_route at h
    have hmem := maxByKeyLast_mem h
    have hle := maxByKeyLast_le h
    rw [List.mem_filter] at hmem
    exact ⟨hmem.2, hmem.1, fun r' hr' hm =>
      hle r' (List.mem_filter.mpr ⟨hr', hm⟩)⟩
  · intro h r' hr'
    unfold RoutingTable.find_best_route at h
    have hnil := maxByKeyLast_eq_none.mp h
    have := List.filter_eq_nil_iff.mp hnil r' hr'
    simpa using this

/-- Witness for the C1 amended theorem on a one-route table: the Direct
route for 10.0.0.0/24 matches 10.0.0.5 and has maximal prefix length. -/
theorem find_best_route_longest_match_witness :
    RoutingTable.matches_network ⟨10,0,0,5⟩
        (Route.new_direct ⟨10,0,0,0⟩ ⟨255,255,255,0⟩ "eth0" 0) = true ∧
    Route.new_direct ⟨10,0,0,0⟩ ⟨255,255,255,0⟩ "eth0" 0 ∈
      ((RoutingTable.new.install_direct_route ⟨10,0,0,0⟩ ⟨255,255,255,0⟩
        "eth0" 0).1).get_all_routes ∧
    ∀ r' ∈ ((RoutingTable.new.install_direct_route ⟨10,0,0,0⟩ ⟨255,255,255,0⟩
        "eth0" 0).1).get_all_routes,
      RoutingTable.matches_network ⟨10,0,0,5⟩ r' = true →
        r'.prefLength ≤
          (Route.new_direct ⟨10,0,0,0⟩ ⟨255,255,255,0⟩ "eth0" 0).prefLength :=
  (find_best_route_longest_match
    ((RoutingTable.new.install_direct_route ⟨10,0,0,0⟩ ⟨255,255,255,0⟩
      "eth0" 0).1) ⟨10,0,0,5⟩).1
    (Route.new_direct ⟨10,0,0,0⟩ ⟨255,255,255,0⟩ "eth0" 0) (by decide)

/-- Counterexample for C8: Dynamic route with last-updated 0 under the
default timers (T_timeout 180, T_gc 240). The timeout sweep at time 300
(past 0 + 180) marks it metric 16, but the garbage-collection sweep at
time 421 (past 0 + 180 + 240) still keeps the entry, because the GC age
is measured from the marking sweep (300), not from the expiry instant. -/
theorem gc_misses_claimed_deadline :
    let r := Route.new ⟨10,0,0,0⟩ ⟨255,255,255,0⟩ ⟨10,1,0,1⟩ 2 "eth1"
      RouteSource.Dynamic (some ⟨10,1,0,1⟩) 0
    let rt0 := (RoutingTable.new.add_or_replace r 0).1
    let rt1 := rt0.process_timeouts 300
    let rt2 := rt1.garbage_collect 421
    (300 : Nat) > 0 + 180 ∧ (421 : Nat) > 0 + 180 + 240 ∧
    (rt1.findRoute (⟨10,0,0,0⟩, ⟨255,255,255,0⟩)).map Route.metric =
      some 16 ∧
    rt2.findRoute (⟨10,0,0,0⟩, ⟨255,255,255,0⟩) =
      some (r.mark_unreachable 300) := by
  decide

/-- C8 (amended): a non-Dynamic route is never touched by the timeout
sweep; a stale Dynamic route (sweep time `t1` more than the route timeout
past its last update) is marked metric 16 with `last_updated := t1`, and
a garbage-collection sweep at `t2` keeps the marked entry iff
`t2 - t1 ≤ T_gc` — the GC deadline runs from the marking sweep, not from
the original `last_updated`. -/
theorem dynamic_route_lifecycle (rt : RoutingTable) (k : RouteKey) (r : Route)
    (t1 t2 : Nat) (hfind : rt.findRoute k = some r) :
    (r.source ≠ RouteSource.Dynamic →
      (rt.process_timeouts t1).findRoute k = some r) ∧
    (r.source = RouteSource.Dynamic → t1 - r.last_updated > rt.route_timeout →
      (rt.process_timeouts t1).findRoute k = some (r.mark_unreachable t1) ∧
      (r.mark_unreachable t1).metric = 16 ∧
      (t2 - t1 ≤ rt.garbage_collection_timeout →
        ((rt.process_timeouts t1).garbage_collect t2).findRoute k =
          some (r.mark_unreachable t1)) ∧
      (t2 - t1 > rt.garbage_collection_timeout →
        ∀ k', (k', r.mark_unreachable t1) ∉
          ((rt.process_timeouts t1).garbage_collect t2).routes)) := by
  have hpt := findRoute_process_timeouts rt t1 k
  constructor
  · intro hnd
    rw [hpt, hfind]
    have : ¬ (r.source = RouteSource.Dynamic ∧
        t1 - r.last_updated > rt.route_timeout) := by
      rintro ⟨h1, -⟩; exact hnd h1
    simp [this]
  · intro hdyn hstale
    have hmark : (rt.process_timeouts t1).findRoute k =
        some (r.mark_unreachable t1) := by
      rw [hpt, hfind]
      simp [hdyn, hstale]
    refine ⟨hmark, rfl, ?_, ?_⟩
    · intro hkeep
      obtain ⟨kv, hkv, hkv2⟩ := Option.map_eq_some'.mp hmark
      have hgc : (rt.process_timeouts t1).garbage_collection_timeout =
          rt.garbage_collection_timeout := rfl
      have hpred : (fun kv : RouteKey × Route =>
          if kv.2.source = RouteSource.Dynamic ∧ kv.2.metric ≥ 16
          then decide (t2 - kv.2.last_updated ≤
            (rt.process_timeouts t1).garbage_collection_timeout)
          else true) kv = true := by
        simp only [hkv2]
        rw [if_pos ⟨hdyn, by simp [Route.mark_unreachable]⟩, hgc]
        exact decide_eq_true hkeep
      have hff := find?_filter_of_pred (fun kv => kv.1 = k)
        (fun kv : RouteKey × Route =>
          if kv.2.source = RouteSource.Dynamic ∧ kv.2.metric ≥ 16
          then decide (t2 - kv.2.last_updated ≤
            (rt.process_timeouts t1).garbage_collection_timeout)
          else true) hkv hpred
      unfold RoutingTable.garbage_collect RoutingTable.findRoute
      simp only
      rw [hff]
      simp [hkv2]
    · intro hdrop k' hmem
      unfold RoutingTable.garbage_collect at hmem
      simp only [List.mem_filter] at hmem
      have hcond : (r.mark_unreachable t1).source = RouteSource.Dynamic ∧
          (r.mark_unreachable t1).metric ≥ 16 :=
        ⟨hdyn, by simp [Route.mark_unreachable]⟩
      have h2 := hmem.2
      rw [if_pos hcond] at h2
      have hle : t2 - (r.mark_unreachable t1).last_updated ≤
          (rt.process_timeouts t1).garbage_collection_timeout :=
        of_decide_eq_true h2
      have hgc : (rt.process_timeouts t1).garbage_collection_timeout =
          rt.garbage_collection_timeout := rfl
      have hlu : (r.mark_unreachable t1).last_updated = t1 := rfl
      rw [hlu, hgc] at hle
      omega

/-- Witness for the C8 amended theorem, in the counterexample scenario:
marked at 300, still present at the GC sweep at 421. -/
theorem dynamic_route_lifecycle_witness :
    (((RoutingTable.new.add_or_replace
        (Route.new ⟨10,0,0,0⟩ ⟨255,255,255,0⟩ ⟨10,1,0,1⟩ 2 "eth1"
          RouteSource.Dynamic (some ⟨10,1,0,1⟩) 0) 0).1).process_timeouts
            300).findRoute (⟨10,0,0,0⟩, ⟨255,255,255,0⟩) =
      some ((Route.new ⟨10,0,0,0⟩ ⟨255,255,255,0⟩ ⟨10,1,0,1⟩ 2 "eth1"
        RouteSource.Dynamic (some ⟨10,1,0,1⟩) 0).mark_unreachable 300) ∧
    ((Route.new ⟨10,0,0,0⟩ ⟨255,255,255,0⟩ ⟨10,1,0,1⟩ 2 "eth1"
      RouteSource.Dynamic (some ⟨10,1,0,1⟩) 0).mark_unreachable 300).metric
        = 16 ∧
    ((((RoutingTable.new.add_or_replace
        (Route.new ⟨10,0,0,0⟩ ⟨255,255,255,0⟩ ⟨10,1,0,1⟩ 2 "eth1"
          RouteSource.Dynamic (some ⟨10,1,0,1⟩) 0) 0).1).process_timeouts
            300).garbage_collect 421).findRoute
        (⟨10,0,0,0⟩, ⟨255,255,255,0⟩) =
      some ((Route.new ⟨10,0,0,0⟩ ⟨255,255,255,0⟩ ⟨10,1,0,1⟩ 2 "eth1"
        RouteSource.Dynamic (some ⟨10,1,0,1⟩) 0).mark_unreachable 300) := by
  have h := (dynamic_route_lifecycle
    ((RoutingTable.new.add_or_replace
      (Route.new ⟨10,0,0,0⟩ ⟨255,255,255,0⟩ ⟨10,1,0,1⟩ 2 "eth1"
        RouteSource.Dynamic (some ⟨10,1,0,1⟩) 0) 0).1)
    (⟨10,0,0,0⟩, ⟨255,255,255,0⟩)
    (Route.new ⟨10,0,0,0⟩ ⟨255,255,255,0⟩ ⟨10,1,0,1⟩ 2 "eth1"
      RouteSource.Dynamic (some ⟨10,1,0,1⟩) 0)
    300 421 (by decide)).2 rfl (by decide)
  exact ⟨h.1, h.2.1, h.2.2.1 (by decide)⟩

/-- Counterexample for C6: `from_bytes` accepts a 4-byte packet whose
version is 1, and a 5-byte packet whose reserved field is 7 with an
entry remainder of 1 byte — no MalformedHeader/MalformedEntries error. -/
theorem from_bytes_accepts_invalid :
    RipPacket.from_bytes [2, 1, 0, 0] =
      Except.ok ⟨RipCommand.Response, 1, 0, []⟩ ∧
    RipPacket.from_bytes [2, 2, 0, 7, 9] =
      Except.ok ⟨RipCommand.Response, 2, 7, []⟩ :=
  ⟨rfl, rfl⟩

/-- C6 (amended): `from_bytes` succeeds iff the input has at least 4
bytes and its command byte is 1 or 2; version, reserved, the 20-byte
entry alignment and the 25-entry cap are not checked by decode (the
separate `validate` rejects version ≠ 2 and metrics above 16). -/
theorem from_bytes_ok_iff (d : List Nat) :
    (∃ p, RipPacket.from_bytes d = Except.ok p) ↔
      4 ≤ d.length ∧ (d.headD 0 = 1 ∨ d.headD 0 = 2) := by
  rcases d with _ | ⟨b0, _ | ⟨b1, _ | ⟨b2, _ | ⟨b3, rest⟩⟩⟩⟩
  · simp [RipPacket.from_bytes]
  · simp [RipPacket.from_bytes]
  · simp [RipPacket.from_bytes]
  · simp [RipPacket.from_bytes]
  · by_cases h1 : b0 = 1
    · simp [RipPacket.from_bytes, h1]
    · by_cases h2 : b0 = 2
      · simp [RipPacket.from_bytes, h1, h2]
      · simp [RipPacket.from_bytes, h1, h2]

/-- Parsing inverts the 20-byte serialization of one entry. -/
theorem parseEntries_toBytes (e : RipEntry) (rest : List Nat) :
    parseEntries (e.toBytes ++ rest) = e :: parseEntries rest := by
  obtain ⟨af, tag, ⟨i0, i1, i2, i3⟩, ⟨m0, m1, m2, m3⟩, ⟨n0, n1, n2, n3⟩, met⟩ := e
  simp only [RipEntry.toBytes, beBytes16, beBytes32, Ipv4.octets,
    List.cons_append, List.nil_append, parseEntries]
  simp only [List.cons.injEq, RipEntry.mk.injEq, Ipv4.mk.injEq, and_self,
    and_true, true_and]
  exact ⟨by omega, by simp⟩

/-- Parsing inverts the serialization of an entry list. -/
theorem parseEntries_flatten (es : List RipEntry) :
    parseEntries ((es.map RipEntry.toBytes).flatten) = es := by
  induction es with
  | nil => rfl
  | cons e es ih =>
    simp only [List.map_cons, List.flatten_cons]
    rw [parseEntries_toBytes, ih]

/-- Serializing the parsed entries of a byte list whose length is a
multiple of 20 (all bytes `< 256`) reproduces the byte list. -/
theorem flatten_parseEntries : ∀ (n : Nat) (l : List Nat),
    l.length = 20 * n → (∀ b ∈ l, b < 256) →
    ((parseEntries l).map RipEntry.toBytes).flatten = l := by
  intro n
  induction n with
  | zero =>
    intro l hlen _
    have : l = [] := List.eq_nil_of_length_eq_zero (by omega)
    subst this
    rfl
  | succ n ih =>
    intro l hlen hb
    rcases l with _ | ⟨b0, _ | ⟨b1, _ | ⟨b2, _ | ⟨b3, _ | ⟨b4, _ | ⟨b5, _ |
      ⟨b6, _ | ⟨b7, _ | ⟨b8, _ | ⟨b9, _ | ⟨b10, _ | ⟨b11, _ | ⟨b12, _ |
      ⟨b13, _ | ⟨b14, _ | ⟨b15, _ | ⟨b16, _ | ⟨b17, _ | ⟨b18, _ |
      ⟨b19, t⟩⟩⟩⟩⟩⟩⟩⟩⟩⟩⟩⟩⟩⟩⟩⟩⟩⟩⟩⟩ <;>
      try (exfalso; simp only [List.length_cons, List.length_nil] at hlen; omega)
    have hlt : t.length = 20 * n := by
      simp only [List.length_cons] at hlen
      omega
    have hbt : ∀ b ∈ t, b < 256 := by
      intro b hbm
      exact hb b (by simp [hbm])
    have h0 : b0 < 256 := hb b0 (by simp)
    have h1 : b1 < 256 := hb b1 (by simp)
    have h2 : b2 < 256 := hb b2 (by simp)
    have h3 : b3 < 256 := hb b3 (by simp)
    have h16 : b16 < 256 := hb b16 (by simp)
    have h17 : b17 < 256 := hb b17 (by simp)
    have h18 : b18 < 256 := hb b18 (by simp)
    have h19 : b19 < 256 := hb b19 (by simp)
    simp only [parseEntries, List.map_cons, List.flatten_cons,
      RipEntry.toBytes, beBytes16, beBytes32, Ipv4.octets,
      List.cons_append, List.nil_append]
    rw [ih t hlt hbt]
    simp only [List.cons.injEq, and_true]
    refine ⟨?_, ?_, ?_, ?_, trivial, trivial, trivial, trivial, trivial,
      trivial, trivial, trivial, trivial, trivial, trivial, trivial,
      ?_, ?_, ?_, ?_⟩ <;> omega

/-- C7: the codec round-trips. Decoding the encoding of any packet that
represents a valid RIPv2 datagram returns that packet, and encoding the
decode of any valid RIPv2 datagram returns the original bytes. -/
theorem rip_codec_round_trip :
    (∀ p : RipPacket, p.validRip →
      RipPacket.from_bytes p.to_bytes = Except.ok p) ∧
    (∀ d : List Nat, validDatagram d →
      ∃ p : RipPacket, RipPacket.from_bytes d = Except.ok p ∧
        p.to_bytes = d) := by
  constructor
  · intro p _
    obtain ⟨cmd, ver, res, es⟩ := p
    cases cmd <;>
      simp [RipPacket.to_bytes, RipCommand.toByte, beBytes16,
        RipPacket.from_bytes, parseEntries_flatten] <;>
      omega
  · intro d hd
    obtain ⟨h4, hmod, hlo, hhi, hcmd, hver, hr2, hr3, hb⟩ := hd
    rcases d with _ | ⟨b0, _ | ⟨b1, _ | ⟨b2, _ | ⟨b3, rest⟩⟩⟩⟩
    all_goals try (simp only [List.length_nil, List.length_cons] at h4; omega)
    simp only [List.getD_cons_zero, List.getD_cons_succ] at hcmd hver hr2 hr3
    subst hver
    subst hr2
    subst hr3
    have hrlen : rest.length % 20 = 0 := by
      simp only [List.length_cons] at hmod
      omega
    have hbrest : ∀ b ∈ rest, b < 256 := by
      intro b hbm
      exact hb b (by simp [hbm])
    have hflat := flatten_parseEntries (rest.length / 20) rest (by omega) hbrest
    rcases hcmd with rfl | rfl
    · refine ⟨_, rfl, ?_⟩
      simp only [RipPacket.to_bytes, RipCommand.toByte, beBytes16, hflat]
      norm_num
    · refine ⟨_, rfl, ?_⟩
      simp only [RipPacket.to_bytes, RipCommand.toByte, beBytes16, hflat]
      norm_num

/-- Witness for C7: a one-entry Response packet and its 24-byte datagram
round-trip in both directions. -/
theorem rip_codec_round_trip_witness :
    RipPacket.validRip ⟨RipCommand.Response, 2, 0,
      [⟨2, 0, ⟨10,0,0,0⟩, ⟨255,255,255,0⟩, ⟨0,0,0,0⟩, 1⟩]⟩ ∧
    RipPacket.from_bytes (RipPacket.to_bytes ⟨RipCommand.Response, 2, 0,
        [⟨2, 0, ⟨10,0,0,0⟩, ⟨255,255,255,0⟩, ⟨0,0,0,0⟩, 1⟩]⟩) =
      Except.ok ⟨RipCommand.Response, 2, 0,
        [⟨2, 0, ⟨10,0,0,0⟩, ⟨255,255,255,0⟩, ⟨0,0,0,0⟩, 1⟩]⟩ ∧
    validDatagram [2, 2, 0, 0, 0, 2, 0, 0, 10, 0, 0, 0, 255, 255, 255, 0,
      0, 0, 0, 0, 0, 0, 0, 1] ∧
    ∃ p : RipPacket,
      RipPacket.from_bytes [2, 2, 0, 0, 0, 2, 0, 0, 10, 0, 0, 0,
        255, 255, 255, 0, 0, 0, 0, 0, 0, 0, 0, 1] = Except.ok p ∧
      p.to_bytes = [2, 2, 0, 0, 0, 2, 0, 0, 10, 0, 0, 0, 255, 255, 255, 0,
        0, 0, 0, 0, 0, 0, 0, 1] :=
  ⟨by decide,
    rip_codec_round_trip.1 ⟨RipCommand.Response, 2, 0,
      [⟨2, 0, ⟨10,0,0,0⟩, ⟨255,255,255,0⟩, ⟨0,0,0,0⟩, 1⟩]⟩ (by decide),
    by decide,
    rip_codec_round_trip.2 [2, 2, 0, 0, 0, 2, 0, 0, 10, 0, 0, 0,
      255, 255, 255, 0, 0, 0, 0, 0, 0, 0, 0, 1] (by decide)⟩
